import Mathlib

/-!
Verification of the customer-intake core of `fridayproject5.py`
(field validators, the aggregate record validator `validate_all`,
and the persistence path `insert_customer` / `App.on_submit`).

Strings are modelled as `List Char`; the ASCII fragment of Python's
whitespace/digit classes is modelled (none of the verified properties
involve non-ASCII whitespace or digits).
-/

namespace Friday

/-- ASCII model of Python's `str.isspace` / regex `\s` class:
space, tab, newline, carriage return, vertical tab, form feed. -/
def pyIsSpace (c : Char) : Bool :=
  c.toNat == 32 || c.toNat == 9 || c.toNat == 10 || c.toNat == 13 ||
  c.toNat == 11 || c.toNat == 12

/-- Model of Python's `str.strip()`: remove leading and trailing
whitespace characters. -/
def pyStrip (l : List Char) : List Char :=
  ((l.dropWhile pyIsSpace).reverse.dropWhile pyIsSpace).reverse

/-- ASCII model of Python's regex `\d` class (decimal digit `0`-`9`). -/
def isDig (c : Char) : Bool :=
  decide (48 ≤ c.toNat ∧ c.toNat ≤ 57)

/-- Numeric value of a digit character (`'0'` ↦ 0, ..., `'9'` ↦ 9). -/
def digitVal (c : Char) : Nat := c.toNat - 48

/-- Value of a digit string read in base 10 (models Python's `int`). -/
def natOfDigits (l : List Char) : Nat :=
  l.foldl (fun a c => 10 * a + digitVal c) 0

/-! ### A small regex matcher

`EMAIL_RE = ^[^@\s]+@[^@\s]+\.[^@\s]+$` is a concatenation of literal
characters and one-or-more character classes, matched against the whole
string (`re.match` plus the trailing `$`; the stripped input holds no
trailing newline, so `$` means end of string).  `matchAtoms` implements
exactly that fragment of regex matching, by structural recursion on the
input characters. -/

/-- One regex atom: a literal character, or `C+` for a character class. -/
inductive Atom where
  | lit (c : Char)
  | plus (p : Char → Bool)

/-- Full-match of a sequence of atoms against a character list
(backtracking one-or-more semantics, equivalent to the greedy matching
of Python's `re` for this pattern class). -/
def matchAtoms : List Char → List Atom → Bool
  | [], as => as.isEmpty
  | _ :: _, [] => false
  | x :: xs, .lit c :: as => x == c && matchAtoms xs as
  | x :: xs, .plus p :: as => p x && (matchAtoms xs as || matchAtoms xs (.plus p :: as))

/-- The character class `[^@\s]`: anything but `@` and whitespace. -/
def emailCls (c : Char) : Bool := !(c == '@') && !(pyIsSpace c)

/-- The pattern `[^@\s]+@[^@\s]+\.[^@\s]+`, i.e. `EMAIL_RE` without its
(implicit) anchors. -/
def EMAIL_ATOMS : List Atom :=
  [.plus emailCls, .lit '@', .plus emailCls, .lit '.', .plus emailCls]

/-! ### Model of `datetime.strptime(s, "%Y-%m-%d")`

CPython's `_strptime` compiles the format to the anchored regex
`(?P<Y>\d\d\d\d)-(?P<m>1[0-2]|0[1-9]|[1-9])-(?P<d>3[01]|[12]\d|0[1-9]|[1-9])`,
requires the whole string to be consumed, and then builds
`datetime(year, month, day)`, which raises `ValueError` unless
`1 ≤ year` and `day` does not exceed the length of that month.
Since the digit groups cannot contain `-`, full-matching this regex is
equivalent to splitting the string at `-` into exactly three parts and
matching each group against its alternation. -/

/-- Gregorian leap-year rule, as used by Python's `datetime`. -/
def isLeap (y : Nat) : Bool :=
  y % 4 == 0 && (!(y % 100 == 0) || y % 400 == 0)

/-- Number of days of month `m` in year `y` (months 1..12; any other
`m` never reaches this check with a shape-valid month part). -/
def daysInMonth (y : Nat) (m : Nat) : Nat :=
  if m = 2 then (if isLeap y then 29 else 28)
  else if m = 4 ∨ m = 6 ∨ m = 9 ∨ m = 11 then 30
  else 31

/-- The `%Y` group `\d\d\d\d`: exactly four digits, read as a year. -/
def yearOfPart (l : List Char) : Option Nat :=
  if l.length = 4 ∧ l.all isDig = true then some (natOfDigits l) else none

/-- The `%m` group `1[0-2]|0[1-9]|[1-9]`, read as a month number. -/
def monthOfPart : List Char → Option Nat
  | [c] =>
    if 49 ≤ c.toNat ∧ c.toNat ≤ 57 then some (digitVal c) else none
  | [c1, c2] =>
    if c1.toNat = 49 ∧ 48 ≤ c2.toNat ∧ c2.toNat ≤ 50 then some (10 + digitVal c2)
    else if c1.toNat = 48 ∧ 49 ≤ c2.toNat ∧ c2.toNat ≤ 57 then some (digitVal c2)
    else none
  | _ => none

/-- The `%d` group `3[01]|[12]\d|0[1-9]|[1-9]`, read as a day number. -/
def dayOfPart : List Char → Option Nat
  | [c] =>
    if 49 ≤ c.toNat ∧ c.toNat ≤ 57 then some (digitVal c) else none
  | [c1, c2] =>
    if c1.toNat = 51 ∧ 48 ≤ c2.toNat ∧ c2.toNat ≤ 49 then some (30 + digitVal c2)
    else if (49 ≤ c1.toNat ∧ c1.toNat ≤ 50) ∧ isDig c2 = true then
      some (10 * digitVal c1 + digitVal c2)
    else if c1.toNat = 48 ∧ 49 ≤ c2.toNat ∧ c2.toNat ≤ 57 then some (digitVal c2)
    else none
  | _ => none

/-- The `datetime(year, month, day)` constructor check for values the
regex already bounds: the year must be at least 1 (a four-digit year is
at most 9999 = MAXYEAR) and the day must exist in that month. -/
def dateOk (y m d : Nat) : Bool :=
  decide (1 ≤ y) && decide (d ≤ daysInMonth y m)

/-- Model of `datetime.strptime(l, "%Y-%m-%d")`: `some (y, m, d)` on
success, `none` when Python would raise `ValueError`. -/
def strptimeYmd (l : List Char) : Option (Nat × Nat × Nat) :=
  match l.splitOn '-' with
  | [yp, mp, dp] =>
    match yearOfPart yp, monthOfPart mp, dayOfPart dp with
    | some y, some m, some d => if dateOk y m d then some (y, m, d) else none
    | _, _, _ => none
  | _ => none

/-! ### The six field validators (source lines 41-63) -/

/-- `validate_name`: `len(name.strip()) > 0`. -/
def validate_name (name : List Char) : Bool :=
  decide (0 < (pyStrip name).length)

/-- `validate_birthday`: `datetime.strptime(bday.strip(), "%Y-%m-%d")`
succeeds. -/
def validate_birthday (bday : List Char) : Bool :=
  (strptimeYmd (pyStrip bday)).isSome

/-- `validate_email`: `EMAIL_RE.match(email.strip())` is not `None`. -/
def validate_email (email : List Char) : Bool :=
  matchAtoms (pyStrip email) EMAIL_ATOMS

/-- `validate_phone`: `len(re.sub(r"\D", "", phone)) >= 10`. -/
def validate_phone (phone : List Char) : Bool :=
  decide (10 ≤ (phone.filter isDig).length)

/-- `validate_address`: `len(addr.strip()) > 0`. -/
def validate_address (addr : List Char) : Bool :=
  decide (0 < (pyStrip addr).length)

/-- `validate_preferred_contact`: `choice in ("Email", "Phone", "Mail")`. -/
def validate_preferred_contact (choice : List Char) : Bool :=
  choice == "Email".data || choice == "Phone".data || choice == "Mail".data

/-! ### The record validator `validate_all` (source lines 65-79) -/

/-- The six raw form fields handed to the core. -/
structure Fields where
  name : List Char
  birthday : List Char
  email : List Char
  phone : List Char
  address : List Char
  preferred_contact : List Char
deriving DecidableEq

/-- Error message of the name check. -/
def msgName : List Char := "Please enter the customer\x27s name.".data

/-- Error message of the birthday check. -/
def msgBirthday : List Char :=
  "Birthday must be in YYYY-MM-DD format (e.g., 2001-09-15).".data

/-- Error message of the email check. -/
def msgEmail : List Char := "Please enter a valid email address.".data

/-- Error message of the phone check. -/
def msgPhone : List Char :=
  "Please enter a valid phone number with at least 10 digits.".data

/-- Error message of the address check. -/
def msgAddress : List Char := "Please enter the address.".data

/-- Error message of the preferred-contact check. -/
def msgPref : List Char := "Please choose a preferred contact method.".data

/-- `validate_all(fields)`: checks the six validators in source order and
returns the first failure with its message, or `(True, "")`. -/
def validate_all (fields : Fields) : Bool × List Char :=
  if !validate_name fields.name then (false, msgName)
  else if !validate_birthday fields.birthday then (false, msgBirthday)
  else if !validate_email fields.email then (false, msgEmail)
  else if !validate_phone fields.phone then (false, msgPhone)
  else if !validate_address fields.address then (false, msgAddress)
  else if !validate_preferred_contact fields.preferred_contact then (false, msgPref)
  else (true, [])

/-! ### The store and `insert_customer` (source lines 16-34, 84-102)

The `customers` table is modelled as a list of rows plus the next
`AUTOINCREMENT` id; `created_at` (assigned by SQLite, never
user-supplied, and unread by the program) is outside the model. -/

/-- One stored row of the `customers` table. -/
structure Row where
  id : Nat
  name : List Char
  birthday : List Char
  email : List Char
  phone : List Char
  address : List Char
  preferred_contact : List Char
deriving DecidableEq

/-- The durable state: stored rows and the next id SQLite's
`AUTOINCREMENT` will assign (ids are never reused after deletion —
and the program has no delete path at all). -/
structure Store where
  rows : List Row
  nextId : Nat
deriving DecidableEq

/-- The row the `INSERT` statement of `insert_customer` produces for
input `f` when the store assigns id `n`: name, birthday, email, phone
and address are `.strip()`ed, `preferred_contact` is passed through. -/
def mkRow (f : Fields) (n : Nat) : Row :=
  { id := n
    name := pyStrip f.name
    birthday := pyStrip f.birthday
    email := pyStrip f.email
    phone := pyStrip f.phone
    address := pyStrip f.address
    preferred_contact := f.preferred_contact }

/-- Effect of a successful `INSERT INTO customers ... VALUES (?,...)` on
the store. -/
def insertRow (f : Fields) (s : Store) : Store :=
  { rows := s.rows ++ [mkRow f s.nextId], nextId := s.nextId + 1 }

/-- The Python value a call returns: `None`, or an `int` (the program's
`insert_customer` is annotated `-> None` and has no `return`). -/
inductive PyRet where
  | none
  | int (n : Int)
deriving DecidableEq

/-- Failure of the underlying SQLite write (`sqlite3` raises). -/
inductive DBError where
  | sqliteError
deriving DecidableEq

/-- `insert_customer(fields)`: opens a connection, executes the insert
and commits.  `writeOk` models whether the underlying SQLite write
succeeds; on failure `sqlite3` raises and no row is written (the insert
is a single atomic statement), on success the function falls off the
end, returning Python's `None`. -/
def insert_customer (f : Fields) (s : Store) (writeOk : Bool) :
    Except DBError (Store × PyRet) :=
  if writeOk then .ok (insertRow f s, PyRet.none) else .error .sqliteError

/-- `App.on_submit`: validates the form data, and only when validation
passes attempts the insert; a raised database error is caught and
reported, leaving the store as it was. -/
def on_submit (data : Fields) (s : Store) (writeOk : Bool) : Store :=
  if (validate_all data).1 then
    match insert_customer data s writeOk with
    | .ok (s1, _) => s1
    | .error _ => s
  else s

/-- A sequence of successful `insert_customer` calls on one store:
returns the final store and the list of ids the store assigned, in call
order. -/
def insertMany : List Fields → Store → Store × List Nat
  | [], s => (s, [])
  | f :: fs, s =>
    let out := insertMany fs (insertRow f s)
    (out.1, s.nextId :: out.2)

/-! ### Spec-side definitions

These follow the wording of the specification (not the code) and are
compared with the code-derived definitions above. -/

/-- The six field checks in the fixed order the spec prescribes for the
record validator (section 4.2), each paired with its failure reason. -/
def specOrderedChecks (f : Fields) : List (Bool × List Char) :=
  [(validate_name f.name, msgName),
   (validate_birthday f.birthday, msgBirthday),
   (validate_email f.email, msgEmail),
   (validate_phone f.phone, msgPhone),
   (validate_address f.address, msgAddress),
   (validate_preferred_contact f.preferred_contact, msgPref)]

/-- Spec section 4.2: evaluate the validators in fixed order and report
the first failure's reason; `none` when all six pass. -/
def specFirstFailure (f : Fields) : Option (List Char) :=
  ((specOrderedChecks f).find? (fun p => !p.1)).map Prod.snd

/-- Spec reading of the birthday rule taken literally: the trimmed
string is exactly `YYYY-MM-DD` — four digits, dash, two digits, dash,
two digits — denoting a real calendar date (month 1-12, day within the
month, year at least 1). -/
def specBirthdayStrict (s : List Char) : Bool :=
  match pyStrip s with
  | [y1, y2, y3, y4, h1, m1, m2, h2, d1, d2] =>
    h1 == '-' && h2 == '-' && [y1, y2, y3, y4, m1, m2, d1, d2].all isDig &&
    (decide (1 ≤ natOfDigits [y1, y2, y3, y4]) &&
     decide (1 ≤ natOfDigits [m1, m2]) && decide (natOfDigits [m1, m2] ≤ 12) &&
     decide (1 ≤ natOfDigits [d1, d2]) &&
     decide (natOfDigits [d1, d2] ≤ daysInMonth (natOfDigits [y1, y2, y3, y4]) (natOfDigits [m1, m2])))
  | _ => false

/-- Amended birthday rule: the trimmed string is year-dash-month-dash-day
with the year exactly four digits and the month and day one or two
digits each (zero padding optional), denoting a real calendar date. -/
def specBirthdayAmended (s : List Char) : Bool :=
  match (pyStrip s).splitOn '-' with
  | [yp, mp, dp] =>
    (yp.length == 4) && yp.all isDig &&
    (decide (1 ≤ mp.length) && decide (mp.length ≤ 2)) && mp.all isDig &&
    (decide (1 ≤ dp.length) && decide (dp.length ≤ 2)) && dp.all isDig &&
    (decide (1 ≤ natOfDigits yp) &&
     decide (1 ≤ natOfDigits mp) && decide (natOfDigits mp ≤ 12) &&
     decide (1 ≤ natOfDigits dp) &&
     decide (natOfDigits dp ≤ daysInMonth (natOfDigits yp) (natOfDigits mp)))
  | _ => false

/-- Value-level reading of a year-month-day split: four-digit year,
one-or-two-digit month 1-12, one-or-two-digit day that exists in that
month, year at least 1.  Both the code model and the amended spec rule
are equivalent to this condition on the three dash-separated parts. -/
def birthdayPartsOk (yp mp dp : List Char) : Prop :=
  (yp.length = 4 ∧ yp.all isDig = true ∧ 1 ≤ natOfDigits yp) ∧
  (mp.all isDig = true ∧ (mp.length = 1 ∨ mp.length = 2) ∧
    1 ≤ natOfDigits mp ∧ natOfDigits mp ≤ 12) ∧
  (dp.all isDig = true ∧ (dp.length = 1 ∨ dp.length = 2) ∧
    1 ≤ natOfDigits dp ∧
    natOfDigits dp ≤ daysInMonth (natOfDigits yp) (natOfDigits mp))

/-- All six fields of a stored row pass their field validators: the
"fully valid, no partial record" invariant of the spec. -/
def rowValid (r : Row) : Prop :=
  validate_name r.name = true ∧ validate_birthday r.birthday = true ∧
  validate_email r.email = true ∧ validate_phone r.phone = true ∧
  validate_address r.address = true ∧
  validate_preferred_contact r.preferred_contact = true

/-! ### Concrete inputs (spec section 8, scenarios 1 and 2) -/

/-- Scenario 1 of the spec: a fully valid submission. -/
def exampleFields : Fields :=
  { name := "Ana Li".data
    birthday := "2001-09-15".data
    email := "a@b.co".data
    phone := "(555) 123-4567".data
    address := "1 Main St".data
    preferred_contact := "Email".data }

/-- Scenario 2 of the spec: same submission with the impossible
birthday `2021-13-40`. -/
def badBirthdayFields : Fields :=
  { exampleFields with birthday := "2021-13-40".data }

/-- A store holding no rows, with the first id still to be assigned. -/
def emptyStore : Store := { rows := [], nextId := 1 }

/-! ### Helper lemmas on `pyStrip` -/

/-- `pyStrip` is left-strip followed by Mathlib's right-strip. -/
theorem pyStrip_eq (l : List Char) :
    pyStrip l = List.rdropWhile pyIsSpace (l.dropWhile pyIsSpace) := rfl

/-- Right-stripping cannot expose new leading whitespace. -/
theorem dropWhile_rdropWhile (p : Char → Bool) (m : List Char)
    (hm : m.dropWhile p = m) :
    (List.rdropWhile p m).dropWhile p = List.rdropWhile p m := by
  obtain ⟨t, ht⟩ := List.rdropWhile_prefix p m
  revert ht
  generalize List.rdropWhile p m = a
  intro ht
  subst ht
  rw [List.dropWhile_eq_self_iff] at hm ⊢
  intro hl
  have hlm : 0 < (a ++ t).length := by
    rw [List.length_append]
    omega
  have hhd := hm hlm
  have hcast : (a ++ t).get ⟨0, hlm⟩ = a.get ⟨0, hl⟩ := by
    simp only [List.get_eq_getElem]
    exact List.getElem_append_left hl
  rw [hcast] at hhd
  exact hhd

/-- Stripping an already-stripped string changes nothing. -/
theorem pyStrip_idem (l : List Char) : pyStrip (pyStrip l) = pyStrip l := by
  rw [pyStrip_eq, pyStrip_eq,
    dropWhile_rdropWhile pyIsSpace _ (List.dropWhile_idempotent _ _),
    List.rdropWhile_idempotent]

/-- Whitespace characters are not digits. -/
theorem pyIsSpace_not_isDig (c : Char) (hc : pyIsSpace c = true) : isDig c = false := by
  simp only [pyIsSpace, Bool.or_eq_true, beq_iff_eq] at hc
  simp only [isDig, decide_eq_false_iff_not, not_and, not_le]
  rcases hc with ((((h | h) | h) | h) | h) | h <;> omega

/-- Dropping a leading run of characters none of which satisfy `q`
leaves a `q`-filter unchanged. -/
theorem filter_dropWhile (p q : Char → Bool) (h : ∀ c, p c = true → q c = false) :
    ∀ l : List Char, (l.dropWhile p).filter q = l.filter q := by
  intro l
  induction l with
  | nil => rfl
  | cons c t ih =>
    rw [List.dropWhile_cons]
    by_cases hc : p c = true
    · rw [if_pos hc, ih, List.filter_cons, h c hc]
      simp
    · rw [if_neg hc]

/-- Stripping whitespace does not change the digit characters. -/
theorem filter_isDig_pyStrip (l : List Char) :
    (pyStrip l).filter isDig = l.filter isDig := by
  calc (pyStrip l).filter isDig
      = ((l.dropWhile pyIsSpace).reverse.dropWhile pyIsSpace).reverse.filter isDig := rfl
    _ = (((l.dropWhile pyIsSpace).reverse.dropWhile pyIsSpace).filter isDig).reverse := by
        rw [List.filter_reverse]
    _ = ((l.dropWhile pyIsSpace).reverse.filter isDig).reverse := by
        rw [filter_dropWhile _ _ pyIsSpace_not_isDig]
    _ = (l.dropWhile pyIsSpace).filter isDig := by
        rw [List.filter_reverse, List.reverse_reverse]
    _ = l.filter isDig := filter_dropWhile _ _ pyIsSpace_not_isDig l

/-! ### Validators are invariant under stripping -/

/-- Validity of a name is unchanged by stripping. -/
theorem validate_name_pyStrip (x : List Char) :
    validate_name (pyStrip x) = validate_name x := by
  unfold validate_name
  rw [pyStrip_idem]

/-- Validity of an address is unchanged by stripping. -/
theorem validate_address_pyStrip (x : List Char) :
    validate_address (pyStrip x) = validate_address x := by
  unfold validate_address
  rw [pyStrip_idem]

/-- Validity of a birthday is unchanged by stripping. -/
theorem validate_birthday_pyStrip (x : List Char) :
    validate_birthday (pyStrip x) = validate_birthday x := by
  unfold validate_birthday
  rw [pyStrip_idem]

/-- Validity of an email is unchanged by stripping. -/
theorem validate_email_pyStrip (x : List Char) :
    validate_email (pyStrip x) = validate_email x := by
  unfold validate_email
  rw [pyStrip_idem]

/-- Validity of a phone number is unchanged by stripping. -/
theorem validate_phone_pyStrip (x : List Char) :
    validate_phone (pyStrip x) = validate_phone x := by
  unfold validate_phone
  rw [filter_isDig_pyStrip]

/-! ### Characterizations of `validate_all` -/

/-- The success flag of `validate_all` is the conjunction of the six
field validators. -/
theorem validate_all_fst_iff (f : Fields) :
    (validate_all f).1 = true ↔
      (validate_name f.name = true ∧ validate_birthday f.birthday = true ∧
       validate_email f.email = true ∧ validate_phone f.phone = true ∧
       validate_address f.address = true ∧
       validate_preferred_contact f.preferred_contact = true) := by
  unfold validate_all
  cases h1 : validate_name f.name <;> cases h2 : validate_birthday f.birthday <;>
    cases h3 : validate_email f.email <;> cases h4 : validate_phone f.phone <;>
      cases h5 : validate_address f.address <;>
        cases h6 : validate_preferred_contact f.preferred_contact <;> simp

/-- When the success flag is set, the whole result is `(True, "")`. -/
theorem validate_all_eq_pair (f : Fields) (h : (validate_all f).1 = true) :
    validate_all f = (true, []) := by
  unfold validate_all at h ⊢
  split_ifs at h ⊢
  simp_all

/-- A valid submission yields a stored row all of whose fields are
themselves valid (validators are strip-invariant and the insert strips). -/
theorem rowValid_mkRow (f : Fields) (n : Nat) (h : (validate_all f).1 = true) :
    rowValid (mkRow f n) := by
  obtain ⟨h1, h2, h3, h4, h5, h6⟩ := (validate_all_fst_iff f).mp h
  refine ⟨?_, ?_, ?_, ?_, ?_, ?_⟩
  · show validate_name (pyStrip f.name) = true
    rw [validate_name_pyStrip]
    exact h1
  · show validate_birthday (pyStrip f.birthday) = true
    rw [validate_birthday_pyStrip]
    exact h2
  · show validate_email (pyStrip f.email) = true
    rw [validate_email_pyStrip]
    exact h3
  · show validate_phone (pyStrip f.phone) = true
    rw [validate_phone_pyStrip]
    exact h4
  · show validate_address (pyStrip f.address) = true
    rw [validate_address_pyStrip]
    exact h5
  · exact h6

/-- A valid preferred contact is one of the three literal strings. -/
theorem pref_cases (c : List Char) (h : validate_preferred_contact c = true) :
    c = "Email".data ∨ c = "Phone".data ∨ c = "Mail".data := by
  simp only [validate_preferred_contact, Bool.or_eq_true, beq_iff_eq] at h
  tauto

/-! ### Assigned ids -/

/-- `List.range'` with step 1 is strictly increasing. -/
theorem pairwise_lt_range1 : ∀ (n s : Nat), List.Pairwise (· < ·) (List.range' s n)
  | 0, _ => by simp
  | n + 1, s => by
    rw [List.range'_succ]
    refine List.Pairwise.cons ?_ (pairwise_lt_range1 n (s + 1))
    intro b hb
    rw [List.mem_range'] at hb
    obtain ⟨i, _, rfl⟩ := hb
    omega

/-- The ids assigned by a run of inserts are consecutive, starting at
the store's next id. -/
theorem insertMany_ids : ∀ (fs : List Fields) (s : Store),
    (insertMany fs s).2 = List.range' s.nextId fs.length
  | [], _ => rfl
  | f :: fs, s => by
    show s.nextId :: (insertMany fs (insertRow f s)).2 = _
    rw [insertMany_ids fs (insertRow f s), List.length_cons, List.range'_succ]
    rfl

/-! ### Characterizations of the `strptime` groups -/

/-- No month is longer than 31 days. -/
theorem daysInMonth_le (y m : Nat) : daysInMonth y m ≤ 31 := by
  unfold daysInMonth
  split_ifs <;> omega

/-- The `%Y` group matches exactly the four-digit strings, read in
base 10. -/
theorem yearOfPart_eq_some (yp : List Char) (v : Nat) :
    yearOfPart yp = some v ↔
      (yp.length = 4 ∧ yp.all isDig = true ∧ v = natOfDigits yp) := by
  unfold yearOfPart
  split_ifs with h
  · simp only [Option.some.injEq]
    constructor
    · rintro rfl
      exact ⟨h.1, h.2, rfl⟩
    · rintro ⟨-, -, rfl⟩
      rfl
  · constructor
    · intro hv
      exact absurd hv (by simp)
    · rintro ⟨h1, h2, -⟩
      exact absurd ⟨h1, h2⟩ h

/-- An `Option Nat` mismatch, as an iff usable under `rw`. -/
theorem none_eq_some_iff (b : Nat) : ((none : Option Nat) = some b) ↔ False := by
  simp

/-- The `%m` group matches exactly the one- or two-digit strings whose
value is a month number 1-12. -/
theorem monthOfPart_eq_some : ∀ (mp : List Char) (v : Nat),
    monthOfPart mp = some v ↔
      (mp.all isDig = true ∧ (mp.length = 1 ∨ mp.length = 2) ∧
       v = natOfDigits mp ∧ 1 ≤ v ∧ v ≤ 12)
  | [], v => by simp [monthOfPart]
  | [c], v => by
    simp only [monthOfPart, List.all_cons, List.all_nil, Bool.and_true, isDig,
      decide_eq_true_eq, natOfDigits, List.foldl, digitVal, List.length_cons,
      List.length_nil, true_or, or_true, true_and, and_true]
    split_ifs with h
    · rw [Option.some.injEq]
      omega
    · simp only [none_eq_some_iff, false_iff]
      omega
  | [c1, c2], v => by
    simp only [monthOfPart, List.all_cons, List.all_nil, Bool.and_true,
      Bool.and_eq_true, isDig, decide_eq_true_eq, natOfDigits, List.foldl,
      digitVal, List.length_cons, List.length_nil, true_or, or_true, true_and,
      and_true]
    split_ifs with h1 h2
    · rw [Option.some.injEq]
      omega
    · rw [Option.some.injEq]
      omega
    · simp only [none_eq_some_iff, false_iff]
      omega
  | c1 :: c2 :: c3 :: t, v => by simp [monthOfPart]

/-- The `%d` group matches exactly the one- or two-digit strings whose
value is a day number 1-31. -/
theorem dayOfPart_eq_some : ∀ (dp : List Char) (v : Nat),
    dayOfPart dp = some v ↔
      (dp.all isDig = true ∧ (dp.length = 1 ∨ dp.length = 2) ∧
       v = natOfDigits dp ∧ 1 ≤ v ∧ v ≤ 31)
  | [], v => by simp [dayOfPart]
  | [c], v => by
    simp only [dayOfPart, List.all_cons, List.all_nil, Bool.and_true, isDig,
      decide_eq_true_eq, natOfDigits, List.foldl, digitVal, List.length_cons,
      List.length_nil, true_or, or_true, true_and, and_true]
    split_ifs with h
    · rw [Option.some.injEq]
      omega
    · simp only [none_eq_some_iff, false_iff]
      omega
  | [c1, c2], v => by
    simp only [dayOfPart, List.all_cons, List.all_nil, Bool.and_true,
      Bool.and_eq_true, isDig, decide_eq_true_eq, natOfDigits, List.foldl,
      digitVal, List.length_cons, List.length_nil, true_or, or_true, true_and,
      and_true]
    split_ifs with h1 h2 h3
    · rw [Option.some.injEq]
      omega
    · rw [Option.some.injEq]
      omega
    · rw [Option.some.injEq]
      omega
    · simp only [none_eq_some_iff, false_iff]
      omega
  | c1 :: c2 :: c3 :: t, v => by simp [dayOfPart]

/-- Success of the three-group match followed by the date check, as an
existential. -/
theorem match3_isSome_iff (oy om od : Option Nat) :
    (match oy, om, od with
      | some y, some m, some d => if dateOk y m d then some (y, m, d) else none
      | _, _, _ => (none : Option (Nat × Nat × Nat))).isSome = true
    ↔ ∃ y m d, oy = some y ∧ om = some m ∧ od = some d ∧ dateOk y m d = true := by
  cases oy with
  | none => cases om <;> cases od <;> simp
  | some y =>
    cases om with
    | none => cases od <;> simp
    | some m =>
      cases od with
      | none => simp
      | some d =>
        by_cases h : dateOk y m d = true
        · simp [h]
        · simp [h]

/-- The code-side strptime model succeeds on a three-part split exactly
under `birthdayPartsOk`. -/
theorem strptime_parts_iff (yp mp dp : List Char) :
    (match yearOfPart yp, monthOfPart mp, dayOfPart dp with
      | some y, some m, some d => if dateOk y m d then some (y, m, d) else none
      | _, _, _ => (none : Option (Nat × Nat × Nat))).isSome = true
    ↔ birthdayPartsOk yp mp dp := by
  rw [match3_isSome_iff]
  unfold birthdayPartsOk
  constructor
  · rintro ⟨y, m, d, hy, hm, hd, hok⟩
    obtain ⟨hy1, hy2, hy3⟩ := (yearOfPart_eq_some yp y).mp hy
    obtain ⟨hm1, hm2, hm3, hm4, hm5⟩ := (monthOfPart_eq_some mp m).mp hm
    obtain ⟨hd1, hd2, hd3, hd4, hd5⟩ := (dayOfPart_eq_some dp d).mp hd
    have hok2 : 1 ≤ y ∧ d ≤ daysInMonth y m := by
      simpa [dateOk] using hok
    subst hy3 hm3 hd3
    exact ⟨⟨hy1, hy2, hok2.1⟩, ⟨hm1, hm2, hm4, hm5⟩, ⟨hd1, hd2, hd4, hok2.2⟩⟩
  · rintro ⟨⟨hy1, hy2, hy3⟩, ⟨hm1, hm2, hm3, hm4⟩, ⟨hd1, hd2, hd3, hd4⟩⟩
    refine ⟨natOfDigits yp, natOfDigits mp, natOfDigits dp, ?_, ?_, ?_, ?_⟩
    · exact (yearOfPart_eq_some _ _).mpr ⟨hy1, hy2, rfl⟩
    · exact (monthOfPart_eq_some _ _).mpr ⟨hm1, hm2, rfl, hm3, hm4⟩
    · exact (dayOfPart_eq_some _ _).mpr
        ⟨hd1, hd2, rfl, hd3, le_trans hd4 (daysInMonth_le _ _)⟩
    · simp [dateOk, hy3, hd4]

/-- The amended spec condition on a three-part split is also
`birthdayPartsOk`. -/
theorem amended_parts_iff (yp mp dp : List Char) :
    ((yp.length == 4) && yp.all isDig &&
     (decide (1 ≤ mp.length) && decide (mp.length ≤ 2)) && mp.all isDig &&
     (decide (1 ≤ dp.length) && decide (dp.length ≤ 2)) && dp.all isDig &&
     (decide (1 ≤ natOfDigits yp) &&
      decide (1 ≤ natOfDigits mp) && decide (natOfDigits mp ≤ 12) &&
      decide (1 ≤ natOfDigits dp) &&
      decide (natOfDigits dp ≤ daysInMonth (natOfDigits yp) (natOfDigits mp)))) = true
    ↔ birthdayPartsOk yp mp dp := by
  unfold birthdayPartsOk
  have hlm : (mp.length = 1 ∨ mp.length = 2) ↔ (1 ≤ mp.length ∧ mp.length ≤ 2) := by
    omega
  have hld : (dp.length = 1 ∨ dp.length = 2) ↔ (1 ≤ dp.length ∧ dp.length ≤ 2) := by
    omega
  rw [hlm, hld]
  simp only [Bool.and_eq_true, beq_iff_eq, decide_eq_true_eq]
  tauto

/-- `validate_birthday` agrees with the amended spec rule. -/
theorem validate_birthday_eq_amended (s : List Char) :
    validate_birthday s = true ↔ specBirthdayAmended s = true := by
  unfold validate_birthday specBirthdayAmended strptimeYmd
  cases hsp : (pyStrip s).splitOn '-' with
  | nil => simp
  | cons yp tl =>
    cases tl with
    | nil => simp
    | cons mp tl2 =>
      cases tl2 with
      | nil => simp
      | cons dp tl3 =>
        cases tl3 with
        | cons e rest => simp
        | nil => rw [strptime_parts_iff, amended_parts_iff]

/-! ### Claim theorems -/

/-- C1: through the submission path, a record is persisted only if all
six user-supplied fields pass `validate_all`; an invalid submission
leaves the store unchanged, and every row the submission adds comes
from a fully validated mapping and is itself fully valid — no partial
record ever reaches storage. -/
theorem submit_gates_on_validation (data : Fields) (s : Store) (w : Bool) :
    ((validate_all data).1 = false → on_submit data s w = s) ∧
    (∀ r : Row, r ∈ (on_submit data s w).rows →
      r ∈ s.rows ∨
        (validate_all data = (true, []) ∧ r = mkRow data s.nextId ∧ rowValid r)) := by
  constructor
  · intro h
    unfold on_submit
    rw [h]
    simp
  · intro r hr
    unfold on_submit at hr
    by_cases hv : (validate_all data).1 = true
    · rw [if_pos hv] at hr
      unfold insert_customer at hr
      cases w with
      | false =>
        simp at hr
        exact Or.inl hr
      | true =>
        simp [insertRow] at hr
        rcases hr with hr | hr
        · exact Or.inl hr
        · exact Or.inr ⟨validate_all_eq_pair data hv, hr,
            hr ▸ rowValid_mkRow data s.nextId hv⟩
    · rw [if_neg hv] at hr
      exact Or.inl hr

/-- Witness for C1: submitting scenario 2 (impossible birthday) over
the empty store stores nothing. -/
theorem submit_gates_on_validation_witness :
    on_submit badBirthdayFields emptyStore true = emptyStore :=
  (submit_gates_on_validation badBirthdayFields emptyStore true).1 (by decide)

/-- C2: `validate_all` returns `(False, reason)` where the reason is
that of the earliest invalid field in the fixed order name, birthday,
email, phone, address, preferred contact, and `(True, "")` exactly when
all six fields pass. -/
theorem validate_all_reports_first_failure (f : Fields) :
    validate_all f = (match specFirstFailure f with
      | some m => (false, m)
      | none => (true, [])) ∧
    (specFirstFailure f = none ↔
      (validate_name f.name = true ∧ validate_birthday f.birthday = true ∧
       validate_email f.email = true ∧ validate_phone f.phone = true ∧
       validate_address f.address = true ∧
       validate_preferred_contact f.preferred_contact = true)) := by
  cases h1 : validate_name f.name <;> cases h2 : validate_birthday f.birthday <;>
    cases h3 : validate_email f.email <;> cases h4 : validate_phone f.phone <;>
      cases h5 : validate_address f.address <;>
        cases h6 : validate_preferred_contact f.preferred_contact <;>
          simp [validate_all, specFirstFailure, specOrderedChecks, h1, h2, h3, h4, h5, h6]

/-- C3 counterexample: the code accepts `2001-9-15`, which is not in
the exact `YYYY-MM-DD` format (its month has one digit), so the
birthday validator is not equivalent to the strict format reading. -/
theorem birthday_strict_format_cex :
    validate_birthday "2001-9-15".data = true ∧
    specBirthdayStrict "2001-9-15".data = false := by
  decide

/-- C3 amended: the birthday validator accepts exactly the trimmed
strings of the form year-month-day with a four-digit year and one- or
two-digit month and day denoting a real calendar date; in particular
month 13 and day 32 are rejected. -/
theorem validate_birthday_amended_ok :
    (∀ s : List Char, validate_birthday s = true ↔ specBirthdayAmended s = true) ∧
    validate_birthday "2021-13-40".data = false ∧
    validate_birthday "2021-12-32".data = false :=
  ⟨validate_birthday_eq_amended, by decide, by decide⟩

/-- C4 counterexample: a successful insert returns Python's `None`,
not the id the store assigned (here the stored row gets id 1, and
`None` is not the integer 1). -/
theorem insert_returns_none_cex :
    insert_customer exampleFields emptyStore true =
      Except.ok (insertRow exampleFields emptyStore, PyRet.none) ∧
    (insertRow exampleFields emptyStore).rows = [mkRow exampleFields 1] ∧
    PyRet.none ≠ PyRet.int 1 :=
  ⟨rfl, rfl, by decide⟩

/-- C4 amended: for a validated record, `insert_customer` either
persists it — the store assigning the next integer id internally — and
returns `None`, or raises a database error when the underlying write
fails; these are the only two outcomes. -/
theorem insert_two_outcomes (f : Fields) (s : Store) (w : Bool)
    (_hv : validate_all f = (true, [])) :
    (insert_customer f s w = Except.ok (insertRow f s, PyRet.none) ∧
      (insertRow f s).rows = s.rows ++ [mkRow f s.nextId]) ∨
    insert_customer f s w = Except.error DBError.sqliteError := by
  cases w with
  | false => exact Or.inr rfl
  | true => exact Or.inl ⟨rfl, rfl⟩

/-- Witness for C4's amended theorem at scenario 1 with a succeeding
write. -/
theorem insert_two_outcomes_witness :
    (insert_customer exampleFields emptyStore true =
        Except.ok (insertRow exampleFields emptyStore, PyRet.none) ∧
      (insertRow exampleFields emptyStore).rows =
        emptyStore.rows ++ [mkRow exampleFields emptyStore.nextId]) ∨
    insert_customer exampleFields emptyStore true =
      Except.error DBError.sqliteError :=
  insert_two_outcomes exampleFields emptyStore true (by decide)

/-- C5: an accepted insert stores name, birthday, email, phone and
address exactly as the caller's values with surrounding whitespace
removed (the phone keeps its punctuation), passes `preferred_contact`
through, and no stored field retains leading or trailing whitespace. -/
theorem insert_stores_trimmed_fields (f : Fields) (s : Store) (w : Bool)
    (s1 : Store) (ret : PyRet) (hv : validate_all f = (true, []))
    (h : insert_customer f s w = Except.ok (s1, ret)) :
    s1.rows = s.rows ++ [mkRow f s.nextId] ∧
    (mkRow f s.nextId).name = pyStrip f.name ∧
    (mkRow f s.nextId).birthday = pyStrip f.birthday ∧
    (mkRow f s.nextId).email = pyStrip f.email ∧
    (mkRow f s.nextId).phone = pyStrip f.phone ∧
    (mkRow f s.nextId).address = pyStrip f.address ∧
    (mkRow f s.nextId).preferred_contact = f.preferred_contact ∧
    pyStrip (mkRow f s.nextId).name = (mkRow f s.nextId).name ∧
    pyStrip (mkRow f s.nextId).birthday = (mkRow f s.nextId).birthday ∧
    pyStrip (mkRow f s.nextId).email = (mkRow f s.nextId).email ∧
    pyStrip (mkRow f s.nextId).phone = (mkRow f s.nextId).phone ∧
    pyStrip (mkRow f s.nextId).address = (mkRow f s.nextId).address ∧
    pyStrip (mkRow f s.nextId).preferred_contact =
      (mkRow f s.nextId).preferred_contact := by
  have hw : w = true := by
    cases w
    · exact absurd h (by simp [insert_customer])
    · rfl
  subst hw
  simp only [insert_customer, if_pos, Except.ok.injEq, Prod.mk.injEq] at h
  obtain ⟨hs1, -⟩ := h
  have h6 : validate_preferred_contact f.preferred_contact = true :=
    ((validate_all_fst_iff f).mp (by rw [hv])).2.2.2.2.2
  refine ⟨?_, rfl, rfl, rfl, rfl, rfl, rfl, pyStrip_idem f.name,
    pyStrip_idem f.birthday, pyStrip_idem f.email, pyStrip_idem f.phone,
    pyStrip_idem f.address, ?_⟩
  · rw [← hs1]
    rfl
  · show pyStrip f.preferred_contact = f.preferred_contact
    rcases pref_cases _ h6 with hp | hp | hp <;> rw [hp] <;> decide

/-- Witness for C5 at scenario 1 over the empty store. -/
theorem insert_stores_trimmed_fields_witness :
    (insertRow exampleFields emptyStore).rows =
      emptyStore.rows ++ [mkRow exampleFields emptyStore.nextId] :=
  (insert_stores_trimmed_fields exampleFields emptyStore true
    (insertRow exampleFields emptyStore) PyRet.none (by decide) rfl).1

/-- C6: over any run of successful inserts on a store whose existing
ids are below the next id, the assigned ids strictly increase call by
call, are pairwise distinct, and never reuse an existing row's id. -/
theorem insert_ids_strictly_increasing (fs : List Fields) (s : Store)
    (hwf : ∀ r ∈ s.rows, r.id < s.nextId) :
    List.Pairwise (· < ·) (insertMany fs s).2 ∧
    (insertMany fs s).2.Nodup ∧
    ∀ i ∈ (insertMany fs s).2, ∀ r ∈ s.rows, r.id ≠ i := by
  rw [insertMany_ids]
  refine ⟨pairwise_lt_range1 _ _, ?_, ?_⟩
  · exact (pairwise_lt_range1 _ _).imp Nat.ne_of_lt
  · intro i hi r hr
    rw [List.mem_range'] at hi
    obtain ⟨k, hk, rfl⟩ := hi
    have := hwf r hr
    omega

/-- Witness for C6: two inserts of scenario 1 into the empty store. -/
theorem insert_ids_strictly_increasing_witness :
    List.Pairwise (· < ·) (insertMany [exampleFields, exampleFields] emptyStore).2 ∧
    (insertMany [exampleFields, exampleFields] emptyStore).2.Nodup ∧
    ∀ i ∈ (insertMany [exampleFields, exampleFields] emptyStore).2,
      ∀ r ∈ emptyStore.rows, r.id ≠ i :=
  insert_ids_strictly_increasing [exampleFields, exampleFields] emptyStore
    (by intro r hr; simp [emptyStore] at hr)

/-- C7: inserting the same valid fields twice in a row appends two
distinct rows whose ids differ by the increment step 1 — no duplicate
detection. -/
theorem insert_not_idempotent (f : Fields) (s : Store) (s1 s2 : Store)
    (r1 r2 : PyRet) (_hv : validate_all f = (true, []))
    (h1 : insert_customer f s true = Except.ok (s1, r1))
    (h2 : insert_customer f s1 true = Except.ok (s2, r2)) :
    s2.rows = s.rows ++ [mkRow f s.nextId, mkRow f (s.nextId + 1)] ∧
    mkRow f s.nextId ∈ s2.rows ∧
    mkRow f (s.nextId + 1) ∈ s2.rows ∧
    (mkRow f (s.nextId + 1)).id = (mkRow f s.nextId).id + 1 ∧
    (mkRow f s.nextId).id ≠ (mkRow f (s.nextId + 1)).id ∧
    mkRow f s.nextId ≠ mkRow f (s.nextId + 1) := by
  simp only [insert_customer, if_pos, Except.ok.injEq, Prod.mk.injEq] at h1
  obtain ⟨hs1, -⟩ := h1
  subst hs1
  simp only [insert_customer, if_pos, Except.ok.injEq, Prod.mk.injEq] at h2
  obtain ⟨hs2, -⟩ := h2
  subst hs2
  refine ⟨?_, ?_, ?_, rfl, ?_, ?_⟩
  · show (s.rows ++ [mkRow f s.nextId]) ++ [mkRow f (s.nextId + 1)] = _
    simp
  · simp [insertRow]
  · simp [insertRow]
  · show s.nextId ≠ s.nextId + 1
    omega
  · intro hEq
    have hid := congrArg Row.id hEq
    simp [mkRow] at hid

/-- Witness for C7: the two rows produced by double-inserting scenario
1 into the empty store differ. -/
theorem insert_not_idempotent_witness :
    mkRow exampleFields emptyStore.nextId ≠
      mkRow exampleFields (emptyStore.nextId + 1) :=
  (insert_not_idempotent exampleFields emptyStore
    (insertRow exampleFields emptyStore)
    (insertRow exampleFields (insertRow exampleFields emptyStore))
    PyRet.none PyRet.none (by decide) rfl rfl).2.2.2.2.2

/-- C8: the phone validator accepts exactly the strings with at least
ten digit characters once every non-digit is removed; `555-1234` is
rejected and `555-123-4567` accepted. -/
theorem phone_accepts_iff_ten_digits :
    (∀ p : List Char, validate_phone p = true ↔ 10 ≤ (p.filter isDig).length) ∧
    validate_phone "555-1234".data = false ∧
    validate_phone "555-123-4567".data = true :=
  ⟨fun p => by simp [validate_phone], by decide, by decide⟩

/-- C9: every one of the six field validators rejects the empty
string. -/
theorem validators_reject_empty_string :
    validate_name "".data = false ∧ validate_birthday "".data = false ∧
    validate_email "".data = false ∧ validate_phone "".data = false ∧
    validate_address "".data = false ∧
    validate_preferred_contact "".data = false := by
  decide

/-- C10: the preferred-contact validator is exact string membership in
Email, Phone, Mail — no trimming, no case folding — so padded or
lower-case variants are rejected. -/
theorem preferred_contact_exact_membership :
    (∀ c : List Char, validate_preferred_contact c = true ↔
      (c = "Email".data ∨ c = "Phone".data ∨ c = "Mail".data)) ∧
    validate_preferred_contact " Email ".data = false ∧
    validate_preferred_contact "email".data = false :=
  ⟨fun c => ⟨pref_cases c, by rintro (rfl | rfl | rfl) <;> decide⟩,
    by decide, by decide⟩

end Friday
